import Mathlib

/-!
Shallow embedding of the CCTV activity analyzer (src/analyzer.py, src/utils.py,
src/main.py): the proximity classifier, the frame sampler, the per-frame
activity state machine with its two debounce trackers, and the report
aggregator.  Machine integers are modelled as `Int`/`Nat` (Python integers are
unbounded); fractional quantities (fps, durations, percentages) as `ℚ`.
`int((py2 - py1) * 0.20)` and `p_width * 0.6` are modelled with the exact
rationals 1/5 and 3/5; all concrete inputs used in theorems are ones on which
the Python float computation agrees with the rational one.
-/

namespace CCTV

/-- YOLOv8 class id for persons (analyzer.py line 6). -/
def PERSON_CLASS_ID : Nat := 0

/-- YOLOv8 class id for mobile phones (analyzer.py line 7). -/
def MOBILE_CLASS_ID : Nat := 67

/-- YOLOv8 class id for laptops (analyzer.py line 8). -/
def LAPTOP_CLASS_ID : Nat := 63

/-- YOLOv8 class id for keyboards (analyzer.py line 9). -/
def KEYBOARD_CLASS_ID : Nat := 66

/-- Detector sampling interval `self.FRAME_SKIP = 5` (analyzer.py line 20). -/
def FRAME_SKIP : Nat := 5

/-- An axis-aligned bounding box `(x1, y1, x2, y2)` in integer pixel
coordinates, as produced by `box.xyxy[0].cpu().numpy().astype(int)`. -/
structure Box where
  x1 : Int
  y1 : Int
  x2 : Int
  y2 : Int
  deriving DecidableEq, Repr

/-- One labelled detection reported by the model for a single frame. -/
structure Detection where
  cls : Nat
  box : Box
  deriving DecidableEq, Repr

/-- The person boxes collected from a frame's detections
(analyzer.py lines 75-79). -/
def person_boxes (ds : List Detection) : List Box :=
  (ds.filter (fun d => d.cls = PERSON_CLASS_ID)).map (fun d => d.box)

/-- The mobile-phone boxes of a frame's detections (analyzer.py lines 90-93,
where the inner loops re-scan all boxes keeping those of the mobile
class id). -/
def mobile_boxes (ds : List Detection) : List Box :=
  (ds.filter (fun d => d.cls = MOBILE_CLASS_ID)).map (fun d => d.box)

/-- `laptop_keyboard_detected_current` (analyzer.py lines 80-81): some
detection has the laptop or the keyboard class id. -/
def laptop_keyboard_detected (ds : List Detection) : Bool :=
  ds.any (fun d => d.cls = LAPTOP_CLASS_ID || d.cls = KEYBOARD_CLASS_ID)

/-- `py_mobile_zone = py1 + int((py2 - py1) * 0.20)` (analyzer.py line 86),
with the float product modelled as the exact rational and `int` as floor
(they agree for the non-negative heights used in every theorem below). -/
def py_mobile_zone (p : Box) : Int :=
  p.y1 + ⌊((p.y2 - p.y1 : ℚ) * (1 / 5 : ℚ))⌋

/-- Horizontal-proximity test (analyzer.py line 98):
`abs(m_center_x - p_center_x) < p_width * 0.6`. -/
def horizontal_prox (p m : Box) : Bool :=
  |((m.x1 + m.x2 : ℚ) / 2) - ((p.x1 + p.x2 : ℚ) / 2)| < (p.x2 - p.x1 : ℚ) * (3 / 5 : ℚ)

/-- Vertical-zone test (analyzer.py line 99): `m_center_y > py_mobile_zone`,
a strict comparison. -/
def vertical_prox (p m : Box) : Bool :=
  ((m.y1 + m.y2 : ℚ) / 2) > (py_mobile_zone p : ℚ)

/-- The clamped intersection area of two boxes
(analyzer.py lines 100-101): `max(0, min(px2, mx2) - max(px1, mx1)) *
max(0, min(py2, my2) - max(py1, my1))`. -/
def interArea (p m : Box) : Int :=
  max 0 (min p.x2 m.x2 - max p.x1 m.x1) * max 0 (min p.y2 m.y2 - max p.y1 m.y1)

/-- Overlap test `touches` (analyzer.py lines 100-101): the clamped
intersection area is strictly positive. -/
def touches (p m : Box) : Bool :=
  interArea p m > 0

/-- A (person, mobile) pair qualifying for "mobile in hand"
(analyzer.py line 103): all three geometric tests hold. -/
def qualifies (p m : Box) : Bool :=
  horizontal_prox p m && vertical_prox p m && touches p m

/-- `mobile_in_hand_current` (analyzer.py lines 84-111): true iff some
(person, mobile) pair qualifies.  The nested loops with their `break`s set the
flag as soon as one qualifying pair is found, so the result is this
existential. -/
def mobile_in_hand_check (persons mobiles : List Box) : Bool :=
  persons.any (fun p => mobiles.any (fun m => qualifies p m))

/-- The cached per-frame detection summary: the `last_person_present`,
`last_mobile_in_hand`, `last_laptop_detected` fields of the analyzer
(analyzer.py lines 27-29, 114-116). -/
structure Snapshot where
  person_present : Bool
  mobile_in_hand : Bool
  laptop_detected : Bool
  deriving DecidableEq, Repr

/-- The detection/extraction step on a sampled frame
(analyzer.py lines 67-116): runs the classifier over the frame's detections
and produces the new cached snapshot. -/
def classify (ds : List Detection) : Snapshot :=
  { person_present := !(person_boxes ds).isEmpty
    mobile_in_hand := mobile_in_hand_check (person_boxes ds) (mobile_boxes ds)
    laptop_detected := laptop_keyboard_detected ds }

/-- Cumulative counters `self.stats` (analyzer.py lines 31-37); `current_fps`
is carried separately as a parameter. -/
structure Stats where
  total_video_frames : Nat
  off_camera_frames : Nat
  mobile_in_hand_frames : Nat
  working_frames : Nat
  deriving DecidableEq, Repr

/-- The analyzer's mutable per-run state (analyzer.py lines 23-37):
the two tracker start frames (sentinel -1), the frame counter, the cached
snapshot and the cumulative stats. -/
structure AnalyzerState where
  off_camera_start_frame : Int
  mobile_in_hand_start_frame : Int
  frame_count : Nat
  last : Snapshot
  stats : Stats
  deriving DecidableEq, Repr

/-- The state at construction time (analyzer.py lines 23-37). -/
def initState : AnalyzerState :=
  { off_camera_start_frame := -1
    mobile_in_hand_start_frame := -1
    frame_count := 0
    last := { person_present := false, mobile_in_hand := false, laptop_detected := false }
    stats := { total_video_frames := 0, off_camera_frames := 0
               mobile_in_hand_frames := 0, working_frames := 0 } }

/-- Event labels passed to `log_event` by the analyzer. -/
inductive EventLabel where
  | mobile_in_hand_start
  | mobile_in_hand_end
  | person_missing_alert
  deriving DecidableEq, Repr

/-- One logged event: its label, the `duration_seconds` argument of
`log_event`, and the frame index at which it was emitted. -/
structure Event where
  label : EventLabel
  duration_seconds : ℚ
  frame : Nat
  deriving DecidableEq, Repr

/-- The activity labels assigned by the hierarchical inference
(analyzer.py lines 142-153). -/
def labelOffCamera : String := "Off-Camera/Missing"

/-- Label when a qualifying mobile is in hand (analyzer.py line 143). -/
def labelMobile : String := "Using Mobile Phone"

/-- Label when a laptop or keyboard is present (analyzer.py line 146). -/
def labelWorking : String := "Working on Laptop"

/-- Label for a present but otherwise idle person (analyzer.py line 149). -/
def labelIdle : String := "Present (Idle/Other)"

/-- Result of one frame of the tracking/inference section. -/
structure StepOut where
  state : AnalyzerState
  label : String
  events : List Event
  deriving Repr

/-- Section 1 of the per-frame tracking (analyzer.py lines 124-135): the
mobile-in-hand debounce.  `fc` is the current frame index. -/
def mobileDebounce (fps : ℚ) (mobile_state : Bool) (fc : Nat) (start : Int) :
    Int × List Event :=
  if mobile_state && start = -1 then
    (fc, [{ label := .mobile_in_hand_start, duration_seconds := 0, frame := fc }])
  else if !mobile_state && start ≠ -1 then
    ((-1 : Int),
      [{ label := .mobile_in_hand_end
         duration_seconds := ((fc : Int) - start : ℚ) / fps
         frame := fc }])
  else (start, [])

/-- Section 2 of the per-frame tracking (analyzer.py lines 137-165): the
hierarchical activity inference with counter updates, and the missing-alert
logic on absent frames.  Returns the updated off-camera start frame, updated
stats, the display label and any emitted alert. -/
def hierarchyStep (fps : ℚ) (alertT : Int) (snap : Snapshot) (fc : Nat)
    (offStart : Int) (st : Stats) : Int × Stats × String × List Event :=
  if snap.person_present then
    if snap.mobile_in_hand then
      ((-1 : Int), { st with mobile_in_hand_frames := st.mobile_in_hand_frames + 1 },
        labelMobile, [])
    else if snap.laptop_detected then
      ((-1 : Int), { st with working_frames := st.working_frames + 1 },
        labelWorking, [])
    else
      ((-1 : Int), st, labelIdle, [])
  else
    let st := { st with off_camera_frames := st.off_camera_frames + 1 }
    let offStart := if offStart = -1 then (fc : Int) else offStart
    let duration_frames : Int := (fc : Int) - offStart
    if duration_frames ≥ alertT then
      ((-1 : Int), st, labelOffCamera,
        [{ label := .person_missing_alert
           duration_seconds := (duration_frames : ℚ) / fps
           frame := fc }])
    else
      (offStart, st, labelOffCamera, [])

/-- One iteration of the frame loop from the point where the consumed snapshot
`snap` is fixed (analyzer.py lines 64, 114-192): store the snapshot as the
cached state, set `total_video_frames := frame_count + 1`, run the mobile
debounce, then the hierarchical inference, then advance `frame_count`. -/
def trackStep (fps : ℚ) (alertT : Int) (snap : Snapshot) (s : AnalyzerState) :
    StepOut :=
  let fc := s.frame_count
  let st0 := { s.stats with total_video_frames := fc + 1 }
  let md := mobileDebounce fps snap.mobile_in_hand fc s.mobile_in_hand_start_frame
  let hs := hierarchyStep fps alertT snap fc s.off_camera_start_frame st0
  { state :=
      { off_camera_start_frame := hs.1
        mobile_in_hand_start_frame := md.1
        frame_count := fc + 1
        last := snap
        stats := hs.2.1 }
    label := hs.2.2.1
    events := md.2 ++ hs.2.2.2 }

/-- Run the tracking layer over a list of per-frame consumed snapshots,
collecting all emitted events in order. -/
def trackRun (fps : ℚ) (alertT : Int) (snaps : List Snapshot)
    (s : AnalyzerState) : AnalyzerState × List Event :=
  match snaps with
  | [] => (s, [])
  | snap :: rest =>
      let o := trackStep fps alertT snap s
      let r := trackRun fps alertT rest o.state
      (r.1, o.events ++ r.2)

/-- The frame sampler plus tracking (analyzer.py lines 60-192): on frames with
`frame_count % FRAME_SKIP == 0` the detector runs and the cached snapshot is
replaced by `classify`; on all other frames the cached snapshot is consumed
unmodified. -/
def frameStep (fps : ℚ) (alertT : Int) (dets : List Detection)
    (s : AnalyzerState) : StepOut :=
  let snap := if s.frame_count % FRAME_SKIP = 0 then classify dets else s.last
  trackStep fps alertT snap s

/-- Run the full analyzer loop over a list of per-frame detection results. -/
def analyzeRun (fps : ℚ) (alertT : Int) (frames : List (List Detection))
    (s : AnalyzerState) : AnalyzerState × List Event :=
  match frames with
  | [] => (s, [])
  | dets :: rest =>
      let o := frameStep fps alertT dets s
      let r := analyzeRun fps alertT rest o.state
      (r.1, o.events ++ r.2)

/-- `fps = cap.get(cv2.CAP_PROP_FPS) or self.TARGET_FPS` (analyzer.py
line 48): Python `or` substitutes the target fps exactly when the reported
value is falsy, i.e. zero. -/
def effective_fps (reported target : ℚ) : ℚ :=
  if reported = 0 then target else reported

/-- `self.alert_duration_frames = int(fps * self.ALERT_DURATION_SECONDS)`
(analyzer.py line 52), with `int` as floor (fps and the configured seconds
are non-negative in every use). -/
def alert_duration_frames (fps : ℚ) (alert_duration_seconds : ℚ) : Int :=
  ⌊fps * alert_duration_seconds⌋

/-- Python `a % b` on rationals: `a - b * floor (a / b)` (the remainder has
the sign of the divisor). -/
def qmod (a b : ℚ) : ℚ := a - b * ⌊a / b⌋

/-- Python format `{n:02}`: a minimum field width of 2, zero-padded. -/
def pad2 (n : ℤ) : String :=
  if 0 ≤ n ∧ n < 10 then "0" ++ toString n else toString n

/-- `frames_to_time_str` (utils.py lines 59-65): guard `fps == 0`, else
format `frames / fps` seconds as `hh:mm:ss` with
`hours = int(total_seconds // 3600)`,
`minutes = int((total_seconds % 3600) // 60)`,
`seconds = int(total_seconds % 60)`. -/
def frames_to_time_str (frames : ℕ) (fps : ℚ) : String :=
  if fps = 0 then "00:00:00"
  else
    let total_seconds : ℚ := (frames : ℚ) / fps
    pad2 ⌊total_seconds / 3600⌋ ++ ":" ++
      pad2 ⌊qmod total_seconds 3600 / 60⌋ ++ ":" ++
      pad2 ⌊qmod total_seconds 60⌋

/-- A percentage of total frames (analyzer.py lines 219, 224, 229):
`frames / total_frames * 100 if total_frames > 0 else 0`. -/
def percent_of (frames total : ℕ) : ℚ :=
  if 0 < total then (frames : ℚ) / (total : ℚ) * 100 else 0

/-- The content of the final report printed by `print_final_report`
(analyzer.py lines 206-231): a duration string and a percentage per
category, plus the total duration string. -/
structure Report where
  total_time : String
  off_camera_time : String
  off_camera_percent : ℚ
  mobile_time : String
  mobile_percent : ℚ
  working_time : String
  working_percent : ℚ
  deriving DecidableEq, Repr

/-- `print_final_report` (analyzer.py lines 206-231) as a pure function from
the final stats and fps to the report's computed values. -/
def print_final_report (st : Stats) (fps : ℚ) : Report :=
  { total_time := frames_to_time_str st.total_video_frames fps
    off_camera_time := frames_to_time_str st.off_camera_frames fps
    off_camera_percent := percent_of st.off_camera_frames st.total_video_frames
    mobile_time := frames_to_time_str st.mobile_in_hand_frames fps
    mobile_percent := percent_of st.mobile_in_hand_frames st.total_video_frames
    working_time := frames_to_time_str st.working_frames fps
    working_percent := percent_of st.working_frames st.total_video_frames }

/-- A frame snapshot with no person detected. -/
def absentSnap : Snapshot :=
  { person_present := false, mobile_in_hand := false, laptop_detected := false }

/-- A frame snapshot with a person present, no mobile in hand and no
laptop/keyboard. -/
def presentIdleSnap : Snapshot :=
  { person_present := true, mobile_in_hand := false, laptop_detected := false }

/-- A frame snapshot with a person present holding a mobile. -/
def mobileSnap : Snapshot :=
  { person_present := true, mobile_in_hand := true, laptop_detected := false }

/-- A frame snapshot with a person present at a laptop/keyboard, no mobile. -/
def workingSnap : Snapshot :=
  { person_present := true, mobile_in_hand := false, laptop_detected := true }

/-! ### Helper lemmas about the tracking layer -/

lemma trackRun_append (fps : ℚ) (T : ℤ) (xs ys : List Snapshot)
    (s : AnalyzerState) :
    trackRun fps T (xs ++ ys) s =
      ((trackRun fps T ys (trackRun fps T xs s).1).1,
        (trackRun fps T xs s).2 ++ (trackRun fps T ys (trackRun fps T xs s).1).2) := by
  induction xs generalizing s with
  | nil => simp [trackRun]
  | cons x xs ih => simp [trackRun, ih, List.append_assoc]

/-- Entering the waiting state: an absent frame from an idle off-camera
tracker records the start frame and (threshold positive) emits nothing. -/
lemma trackStep_absent_enter (fps : ℚ) (T : ℤ) (hT : 0 < T)
    (s : AnalyzerState)
    (hm : s.mobile_in_hand_start_frame = -1)
    (hoff : s.off_camera_start_frame = -1) :
    trackStep fps T absentSnap s =
      { state :=
          { off_camera_start_frame := (s.frame_count : ℤ)
            mobile_in_hand_start_frame := -1
            frame_count := s.frame_count + 1
            last := absentSnap
            stats := { s.stats with
              total_video_frames := s.frame_count + 1
              off_camera_frames := s.stats.off_camera_frames + 1 } }
        label := labelOffCamera
        events := [] } := by
  simp [trackStep, mobileDebounce, hierarchyStep, absentSnap, hm, hoff, hT.not_le]

/-- Waiting below threshold: an absent frame whose accumulated duration is
still below the threshold emits nothing and keeps the start frame. -/
lemma trackStep_absent_wait (fps : ℚ) (T : ℤ) (s : AnalyzerState) (st : ℤ)
    (hm : s.mobile_in_hand_start_frame = -1)
    (hoff : s.off_camera_start_frame = st)
    (hne : st ≠ -1)
    (hlt : (s.frame_count : ℤ) - st < T) :
    trackStep fps T absentSnap s =
      { state :=
          { off_camera_start_frame := st
            mobile_in_hand_start_frame := -1
            frame_count := s.frame_count + 1
            last := absentSnap
            stats := { s.stats with
              total_video_frames := s.frame_count + 1
              off_camera_frames := s.stats.off_camera_frames + 1 } }
        label := labelOffCamera
        events := [] } := by
  simp [trackStep, mobileDebounce, hierarchyStep, absentSnap, hm, hoff, hne,
    hlt.not_le]

/-- Firing: an absent frame whose accumulated duration reaches the threshold
emits one missing alert and resets the tracker. -/
lemma trackStep_absent_fire (fps : ℚ) (T : ℤ) (s : AnalyzerState) (st : ℤ)
    (hm : s.mobile_in_hand_start_frame = -1)
    (hoff : s.off_camera_start_frame = st)
    (hne : st ≠ -1)
    (hge : T ≤ (s.frame_count : ℤ) - st) :
    trackStep fps T absentSnap s =
      { state :=
          { off_camera_start_frame := -1
            mobile_in_hand_start_frame := -1
            frame_count := s.frame_count + 1
            last := absentSnap
            stats := { s.stats with
              total_video_frames := s.frame_count + 1
              off_camera_frames := s.stats.off_camera_frames + 1 } }
        label := labelOffCamera
        events := [{ label := .person_missing_alert
                     duration_seconds := (((s.frame_count : ℤ) - st : ℤ) : ℚ) / fps
                     frame := s.frame_count }] } := by
  simp [trackStep, mobileDebounce, hierarchyStep, absentSnap, hm, hoff, hne, hge]

/-- A run of absent frames that stays below the threshold: no events, the
start frame is kept, the frame and off-camera counters advance. -/
lemma absRun_wait (fps : ℚ) (T : ℤ) (st : ℤ) (hne : st ≠ -1) :
    ∀ (j : ℕ) (s : AnalyzerState),
      s.mobile_in_hand_start_frame = -1 →
      s.off_camera_start_frame = st →
      s.stats.total_video_frames = s.frame_count →
      s.last = absentSnap →
      (s.frame_count : ℤ) + j ≤ st + T →
      trackRun fps T (List.replicate j absentSnap) s =
        ({ off_camera_start_frame := st
           mobile_in_hand_start_frame := -1
           frame_count := s.frame_count + j
           last := absentSnap
           stats := { s.stats with
             total_video_frames := s.frame_count + j
             off_camera_frames := s.stats.off_camera_frames + j } }, []) := by
  intro j
  induction j with
  | zero =>
      intro s hm hoff htot hlast _
      obtain ⟨o, m, fc, l, stats⟩ := s
      obtain ⟨tv, oc, mf, wf⟩ := stats
      simp_all [trackRun]
  | succ j ih =>
      intro s hm hoff htot hlast hbound
      rw [List.replicate_succ, trackRun,
        trackStep_absent_wait fps T s st hm hoff hne (by omega)]
      rw [ih _ rfl rfl rfl rfl (by push_cast; push_cast at hbound; omega)]
      simp [AnalyzerState.mk.injEq, Stats.mk.injEq]
      omega

/-- One full alert cycle during continuous absence: from an idle tracker,
`T + 1` absent frames produce exactly one missing alert, emitted on the last
frame of the cycle with duration `T / fps`, and return the tracker to idle. -/
lemma absRun_cycle (fps : ℚ) (T : ℕ) (hT : 1 ≤ T) (s : AnalyzerState)
    (hm : s.mobile_in_hand_start_frame = -1)
    (hoff : s.off_camera_start_frame = -1)
    (htot : s.stats.total_video_frames = s.frame_count) :
    trackRun fps (T : ℤ) (List.replicate (T + 1) absentSnap) s =
      ({ off_camera_start_frame := -1
         mobile_in_hand_start_frame := -1
         frame_count := s.frame_count + (T + 1)
         last := absentSnap
         stats := { s.stats with
           total_video_frames := s.frame_count + (T + 1)
           off_camera_frames := s.stats.off_camera_frames + (T + 1) } },
       [{ label := .person_missing_alert
          duration_seconds := (T : ℚ) / fps
          frame := s.frame_count + T }]) := by
  obtain ⟨t, rfl⟩ : ∃ t, T = t + 1 := ⟨T - 1, by omega⟩
  obtain ⟨o, m, c, l, ⟨tv, oc, mf, wf⟩⟩ := s
  simp only at hm hoff htot
  have htot' := htot.symm
  subst hm hoff htot'
  have e1 := trackStep_absent_enter fps ((t + 1 : ℕ) : ℤ) (by push_cast; omega)
    ⟨-1, -1, c, l, ⟨c, oc, mf, wf⟩⟩ rfl rfl
  simp only at e1
  rw [List.replicate_succ, trackRun, e1]
  simp only
  have e2 := absRun_wait fps ((t + 1 : ℕ) : ℤ) (c : ℤ) (by omega) t
    ⟨(c : ℤ), -1, c + 1, absentSnap, ⟨c + 1, oc + 1, mf, wf⟩⟩
    rfl rfl rfl rfl (by push_cast; omega)
  rw [show List.replicate (t + 1) absentSnap =
        List.replicate t absentSnap ++ [absentSnap] from List.replicate_succ' ..]
  rw [trackRun_append, e2]
  simp only
  have e3 := trackStep_absent_fire fps ((t + 1 : ℕ) : ℤ)
    ⟨(c : ℤ), -1, c + 1 + t, absentSnap, ⟨c + 1 + t, oc + 1 + t, mf, wf⟩⟩
    (c : ℤ) rfl rfl (by omega) (by push_cast; omega)
  simp only at e3
  rw [trackRun, e3]
  simp only [trackRun]
  simp only [List.nil_append, List.append_nil, Prod.mk.injEq,
    AnalyzerState.mk.injEq, Stats.mk.injEq, List.cons.injEq, Event.mk.injEq,
    List.nil_eq, and_true, true_and]
  refine ⟨⟨by omega, by omega, by omega⟩, ?_, by omega⟩
  push_cast
  ring

/-- A continuous absence of `M * (T + 1) + r` frames (`r ≤ T`) from an idle
tracker: exactly `M` missing alerts fire, the `k`-th at frame
`start + k * (T + 1) + T` with duration `T / fps`; the counters advance by the
full length and the tracker is waiting on the trailing `r` frames. -/
lemma absRun_full (fps : ℚ) (T : ℕ) (hT : 1 ≤ T) (r : ℕ) (hr : r ≤ T) :
    ∀ (M : ℕ) (s : AnalyzerState),
      s.mobile_in_hand_start_frame = -1 →
      s.off_camera_start_frame = -1 →
      s.stats.total_video_frames = s.frame_count →
      s.last = absentSnap →
      trackRun fps (T : ℤ) (List.replicate (M * (T + 1) + r) absentSnap) s =
        ({ off_camera_start_frame :=
             if r = 0 then -1 else ((s.frame_count + M * (T + 1) : ℕ) : ℤ)
           mobile_in_hand_start_frame := -1
           frame_count := s.frame_count + (M * (T + 1) + r)
           last := absentSnap
           stats := { s.stats with
             total_video_frames := s.frame_count + (M * (T + 1) + r)
             off_camera_frames := s.stats.off_camera_frames + (M * (T + 1) + r) } },
         (List.range M).map (fun k =>
           { label := .person_missing_alert
             duration_seconds := (T : ℚ) / fps
             frame := s.frame_count + (k * (T + 1) + T) })) := by
  intro M
  induction M with
  | zero =>
      intro s hm hoff htot hlast
      obtain ⟨o, m, c, l, ⟨tv, oc, mf, wf⟩⟩ := s
      simp only at hm hoff htot hlast
      have htot' := htot.symm
      subst hm hoff htot' hlast
      rcases Nat.eq_zero_or_pos r with hr0 | hr1
      · subst hr0
        simp [trackRun]
      · obtain ⟨u, rfl⟩ : ∃ u, r = u + 1 := ⟨r - 1, by omega⟩
        have e1 := trackStep_absent_enter fps ((T : ℕ) : ℤ) (by omega)
          ⟨-1, -1, c, absentSnap, ⟨c, oc, mf, wf⟩⟩ rfl rfl
        simp only at e1
        rw [show (0 * (T + 1) + (u + 1)) = u + 1 from by ring, List.replicate_succ,
          trackRun, e1]
        simp only
        have e2 := absRun_wait fps ((T : ℕ) : ℤ) (c : ℤ) (by omega) u
          ⟨(c : ℤ), -1, c + 1, absentSnap, ⟨c + 1, oc + 1, mf, wf⟩⟩
          rfl rfl rfl rfl (by push_cast; omega)
        rw [e2]
        simp only [List.range_zero, List.map_nil, List.append_nil,
          Prod.mk.injEq, AnalyzerState.mk.injEq, Stats.mk.injEq]
        refine ⟨⟨by simp, trivial, by omega, trivial, by omega, by omega,
          trivial, trivial⟩, trivial⟩
  | succ M ih =>
      intro s hm hoff htot hlast
      obtain ⟨o, m, c, l, ⟨tv, oc, mf, wf⟩⟩ := s
      simp only at hm hoff htot hlast
      have htot' := htot.symm
      subst hm hoff htot' hlast
      rw [show (M + 1) * (T + 1) + r = (T + 1) + (M * (T + 1) + r) from by ring,
        List.replicate_add, trackRun_append]
      have e1 := absRun_cycle fps T hT ⟨-1, -1, c, absentSnap, ⟨c, oc, mf, wf⟩⟩
        rfl rfl rfl
      simp only at e1
      rw [e1]
      simp only
      have e2 := ih ⟨-1, -1, c + (T + 1), absentSnap,
        ⟨c + (T + 1), oc + (T + 1), mf, wf⟩⟩ rfl rfl rfl rfl
      simp only at e2
      rw [e2]
      simp only [Prod.mk.injEq, AnalyzerState.mk.injEq, Stats.mk.injEq]
      refine ⟨⟨?_, trivial, by omega, trivial, by omega, by omega,
        trivial, trivial⟩, ?_⟩
      · split_ifs with h
        · rfl
        · congr 1
          ring
      · rw [List.range_succ_eq_map, List.map_cons, List.map_map]
        simp only [List.singleton_append, List.cons.injEq, Event.mk.injEq]
        refine ⟨⟨trivial, trivial, by simp⟩, ?_⟩
        apply List.map_congr_left
        intro k _
        simp only [Function.comp_apply, Event.mk.injEq, Nat.succ_eq_add_one]
        refine ⟨trivial, trivial, by ring⟩

/-- Mobile debounce onset: a frame with the mobile condition true and the
tracker idle records the start frame and emits the start event with
duration 0. -/
lemma trackStep_mobile_enter (fps : ℚ) (T : ℤ) (s : AnalyzerState)
    (hm : s.mobile_in_hand_start_frame = -1) :
    trackStep fps T mobileSnap s =
      { state :=
          { off_camera_start_frame := -1
            mobile_in_hand_start_frame := (s.frame_count : ℤ)
            frame_count := s.frame_count + 1
            last := mobileSnap
            stats := { s.stats with
              total_video_frames := s.frame_count + 1
              mobile_in_hand_frames := s.stats.mobile_in_hand_frames + 1 } }
        label := labelMobile
        events := [{ label := .mobile_in_hand_start, duration_seconds := 0
                     frame := s.frame_count }] } := by
  simp [trackStep, mobileDebounce, hierarchyStep, mobileSnap, hm]

/-- Mobile debounce steady state: the condition persists, no event. -/
lemma trackStep_mobile_keep (fps : ℚ) (T : ℤ) (s : AnalyzerState) (st : ℤ)
    (hm : s.mobile_in_hand_start_frame = st) (hne : st ≠ -1) :
    trackStep fps T mobileSnap s =
      { state :=
          { off_camera_start_frame := -1
            mobile_in_hand_start_frame := st
            frame_count := s.frame_count + 1
            last := mobileSnap
            stats := { s.stats with
              total_video_frames := s.frame_count + 1
              mobile_in_hand_frames := s.stats.mobile_in_hand_frames + 1 } }
        label := labelMobile
        events := [] } := by
  simp [trackStep, mobileDebounce, hierarchyStep, mobileSnap, hm, hne]

/-- Mobile debounce offset: the condition turns false with the tracker
active; the end event carries the accumulated duration in seconds. -/
lemma trackStep_present_end (fps : ℚ) (T : ℤ) (s : AnalyzerState) (st : ℤ)
    (hm : s.mobile_in_hand_start_frame = st) (hne : st ≠ -1) :
    trackStep fps T presentIdleSnap s =
      { state :=
          { off_camera_start_frame := -1
            mobile_in_hand_start_frame := -1
            frame_count := s.frame_count + 1
            last := presentIdleSnap
            stats := { s.stats with total_video_frames := s.frame_count + 1 } }
        label := labelIdle
        events := [{ label := .mobile_in_hand_end
                     duration_seconds := (((s.frame_count : ℤ) - st : ℤ) : ℚ) / fps
                     frame := s.frame_count }] } := by
  simp [trackStep, mobileDebounce, hierarchyStep, presentIdleSnap, hm, hne]

/-- A present idle frame with both trackers idle: no event, only the frame
counters advance. -/
lemma trackStep_present_idle (fps : ℚ) (T : ℤ) (s : AnalyzerState)
    (hm : s.mobile_in_hand_start_frame = -1) :
    trackStep fps T presentIdleSnap s =
      { state :=
          { off_camera_start_frame := -1
            mobile_in_hand_start_frame := -1
            frame_count := s.frame_count + 1
            last := presentIdleSnap
            stats := { s.stats with total_video_frames := s.frame_count + 1 } }
        label := labelIdle
        events := [] } := by
  simp [trackStep, mobileDebounce, hierarchyStep, presentIdleSnap, hm]

/-- A run of frames on which the mobile condition persists with the tracker
active: no events, the start frame is kept. -/
lemma mobRun_keep (fps : ℚ) (T : ℤ) (st : ℤ) (hne : st ≠ -1) :
    ∀ (j : ℕ) (s : AnalyzerState),
      s.mobile_in_hand_start_frame = st →
      s.off_camera_start_frame = -1 →
      s.stats.total_video_frames = s.frame_count →
      s.last = mobileSnap →
      trackRun fps T (List.replicate j mobileSnap) s =
        ({ off_camera_start_frame := -1
           mobile_in_hand_start_frame := st
           frame_count := s.frame_count + j
           last := mobileSnap
           stats := { s.stats with
             total_video_frames := s.frame_count + j
             mobile_in_hand_frames := s.stats.mobile_in_hand_frames + j } }, []) := by
  intro j
  induction j with
  | zero =>
      intro s hm hoff htot hlast
      obtain ⟨o, m, fc, l, ⟨tv, oc, mf, wf⟩⟩ := s
      simp_all [trackRun]
  | succ j ih =>
      intro s hm hoff htot hlast
      rw [List.replicate_succ, trackRun,
        trackStep_mobile_keep fps T s st hm hne]
      rw [ih _ rfl rfl rfl rfl]
      simp [AnalyzerState.mk.injEq, Stats.mk.injEq]
      omega

/-- A run of present idle frames with both trackers idle: no events, no
category counters change. -/
lemma idleRun (fps : ℚ) (T : ℤ) :
    ∀ (j : ℕ) (s : AnalyzerState),
      s.mobile_in_hand_start_frame = -1 →
      s.off_camera_start_frame = -1 →
      s.stats.total_video_frames = s.frame_count →
      s.last = presentIdleSnap →
      trackRun fps T (List.replicate j presentIdleSnap) s =
        ({ off_camera_start_frame := -1
           mobile_in_hand_start_frame := -1
           frame_count := s.frame_count + j
           last := presentIdleSnap
           stats := { s.stats with
             total_video_frames := s.frame_count + j } }, []) := by
  intro j
  induction j with
  | zero =>
      intro s hm hoff htot hlast
      obtain ⟨o, m, fc, l, ⟨tv, oc, mf, wf⟩⟩ := s
      simp_all [trackRun]
  | succ j ih =>
      intro s hm hoff htot hlast
      rw [List.replicate_succ, trackRun, trackStep_present_idle fps T s hm]
      rw [ih _ rfl rfl rfl rfl]
      simp [AnalyzerState.mk.injEq, Stats.mk.injEq]
      omega

/-- A bracketed mobile interval: from an idle tracker, `K` consecutive frames
with the mobile in hand followed by one frame without produce exactly the
start event (on the first frame, duration 0) and the end event (on the frame
where the condition turns false, duration `K / fps`). -/
lemma mobBracket (fps : ℚ) (T : ℤ) (K : ℕ) (hK : 1 ≤ K) (s : AnalyzerState)
    (hm : s.mobile_in_hand_start_frame = -1)
    (htot : s.stats.total_video_frames = s.frame_count) :
    trackRun fps T (List.replicate K mobileSnap ++ [presentIdleSnap]) s =
      ({ off_camera_start_frame := -1
         mobile_in_hand_start_frame := -1
         frame_count := s.frame_count + K + 1
         last := presentIdleSnap
         stats := { s.stats with
           total_video_frames := s.frame_count + K + 1
           mobile_in_hand_frames := s.stats.mobile_in_hand_frames + K } },
       [{ label := .mobile_in_hand_start, duration_seconds := 0
          frame := s.frame_count },
        { label := .mobile_in_hand_end, duration_seconds := (K : ℚ) / fps
          frame := s.frame_count + K }]) := by
  obtain ⟨u, rfl⟩ : ∃ u, K = u + 1 := ⟨K - 1, by omega⟩
  obtain ⟨o, m, c, l, ⟨tv, oc, mf, wf⟩⟩ := s
  simp only at hm htot
  have htot' := htot.symm
  subst hm htot'
  have e1 := trackStep_mobile_enter fps T ⟨o, -1, c, l, ⟨c, oc, mf, wf⟩⟩ rfl
  simp only at e1
  rw [List.replicate_succ, List.cons_append, trackRun, e1]
  simp only
  have e2 := mobRun_keep fps T (c : ℤ) (by omega) u
    ⟨-1, (c : ℤ), c + 1, mobileSnap, ⟨c + 1, oc, mf + 1, wf⟩⟩ rfl rfl rfl rfl
  rw [trackRun_append, e2]
  simp only
  have e3 := trackStep_present_end fps T
    ⟨-1, (c : ℤ), c + 1 + u, mobileSnap, ⟨c + 1 + u, oc, mf + 1 + u, wf⟩⟩
    (c : ℤ) rfl (by omega)
  simp only at e3
  rw [trackRun, e3]
  simp only [trackRun]
  simp only [List.nil_append, List.append_nil, Prod.mk.injEq,
    AnalyzerState.mk.injEq, Stats.mk.injEq, List.cons.injEq, Event.mk.injEq]
  refine ⟨⟨trivial, trivial, by omega, trivial, by omega, trivial, by omega,
    trivial⟩, ?_⟩
  simp only [List.singleton_append, List.cons.injEq, Event.mk.injEq]
  refine ⟨trivial, ⟨trivial, ?_, by omega⟩, trivial⟩
  push_cast
  ring

/-! ### Counting the branches taken over a snapshot run -/

/-- Frames of a snapshot sequence on which the person is present. -/
def countPresent (snaps : List Snapshot) : Nat :=
  (snaps.filter (fun x => x.person_present)).length

/-- Frames of a snapshot sequence on which the person is absent. -/
def countAbsent (snaps : List Snapshot) : Nat :=
  (snaps.filter (fun x => !x.person_present)).length

/-- Frames on which the hierarchy takes the mobile branch. -/
def countMobile (snaps : List Snapshot) : Nat :=
  (snaps.filter (fun x => x.person_present && x.mobile_in_hand)).length

/-- Frames on which the hierarchy takes the working branch. -/
def countWorking (snaps : List Snapshot) : Nat :=
  (snaps.filter
    (fun x => x.person_present && !x.mobile_in_hand && x.laptop_detected)).length

lemma countAbsent_cons (x : Snapshot) (xs : List Snapshot) :
    countAbsent (x :: xs) =
      (if x.person_present then 0 else 1) + countAbsent xs := by
  cases h : x.person_present <;>
    (simp [countAbsent, List.filter_cons, h]; all_goals omega)

lemma countPresent_cons (x : Snapshot) (xs : List Snapshot) :
    countPresent (x :: xs) =
      (if x.person_present then 1 else 0) + countPresent xs := by
  cases h : x.person_present <;>
    (simp [countPresent, List.filter_cons, h]; all_goals omega)

lemma countMobile_cons (x : Snapshot) (xs : List Snapshot) :
    countMobile (x :: xs) =
      (if x.person_present && x.mobile_in_hand then 1 else 0) +
        countMobile xs := by
  cases h : x.person_present && x.mobile_in_hand <;>
    (simp [countMobile, List.filter_cons, h]; all_goals omega)

lemma countWorking_cons (x : Snapshot) (xs : List Snapshot) :
    countWorking (x :: xs) =
      (if x.person_present && !x.mobile_in_hand && x.laptop_detected
       then 1 else 0) + countWorking xs := by
  cases h : x.person_present && !x.mobile_in_hand && x.laptop_detected <;>
    (simp [countWorking, List.filter_cons, h]; all_goals omega)

lemma countAbsent_add_countPresent (snaps : List Snapshot) :
    countAbsent snaps + countPresent snaps = snaps.length := by
  induction snaps with
  | nil => rfl
  | cons x xs ih =>
      rw [countAbsent_cons, countPresent_cons, List.length_cons]
      cases x.person_present <;> simp <;> omega

lemma countMobile_add_countWorking_le (snaps : List Snapshot) :
    countMobile snaps + countWorking snaps ≤ countPresent snaps := by
  induction snaps with
  | nil => exact Nat.le_refl 0
  | cons x xs ih =>
      rw [countMobile_cons, countWorking_cons, countPresent_cons]
      obtain ⟨p, mo, la⟩ := x
      cases p <;> cases mo <;> cases la <;> simp <;> omega

set_option maxRecDepth 4000 in
/-- Per-frame counter deltas of one tracking step, for an arbitrary consumed
snapshot. -/
lemma trackStep_counters (fps : ℚ) (T : ℤ) (snap : Snapshot)
    (s : AnalyzerState) :
    (trackStep fps T snap s).state.frame_count = s.frame_count + 1 ∧
    (trackStep fps T snap s).state.stats.total_video_frames = s.frame_count + 1 ∧
    (trackStep fps T snap s).state.stats.off_camera_frames =
      s.stats.off_camera_frames + (if snap.person_present then 0 else 1) ∧
    (trackStep fps T snap s).state.stats.mobile_in_hand_frames =
      s.stats.mobile_in_hand_frames +
        (if snap.person_present && snap.mobile_in_hand then 1 else 0) ∧
    (trackStep fps T snap s).state.stats.working_frames =
      s.stats.working_frames +
        (if snap.person_present && !snap.mobile_in_hand && snap.laptop_detected
         then 1 else 0) := by
  obtain ⟨p, mo, la⟩ := snap
  refine ⟨?_, ?_, ?_, ?_, ?_⟩ <;>
    cases p <;> cases mo <;> cases la <;>
      (simp [trackStep, hierarchyStep, mobileDebounce]
       all_goals ((try split) <;> (try split) <;> rfl))

/-- Counter bookkeeping over a whole snapshot run. -/
lemma trackRun_counters (fps : ℚ) (T : ℤ) :
    ∀ (snaps : List Snapshot) (s : AnalyzerState),
      (trackRun fps T snaps s).1.frame_count = s.frame_count + snaps.length ∧
      (trackRun fps T snaps s).1.stats.off_camera_frames =
        s.stats.off_camera_frames + countAbsent snaps ∧
      (trackRun fps T snaps s).1.stats.mobile_in_hand_frames =
        s.stats.mobile_in_hand_frames + countMobile snaps ∧
      (trackRun fps T snaps s).1.stats.working_frames =
        s.stats.working_frames + countWorking snaps ∧
      (s.stats.total_video_frames = s.frame_count →
        (trackRun fps T snaps s).1.stats.total_video_frames =
          s.frame_count + snaps.length) := by
  intro snaps
  induction snaps with
  | nil =>
      intro s
      simp [trackRun, countAbsent, countMobile, countWorking]
  | cons x xs ih =>
      intro s
      obtain ⟨h1, h2, h3, h4, h5⟩ := trackStep_counters fps T x s
      have hx : (trackRun fps T (x :: xs) s).1 =
          (trackRun fps T xs (trackStep fps T x s).state).1 := rfl
      obtain ⟨g1, g2, g3, g4, g5⟩ := ih (trackStep fps T x s).state
      rw [hx]
      refine ⟨?_, ?_, ?_, ?_, ?_⟩
      · rw [g1, h1, List.length_cons]
        omega
      · rw [g2, h3, countAbsent_cons]
        omega
      · rw [g3, h4, countMobile_cons]
        omega
      · rw [g4, h5, countWorking_cons]
        omega
      · intro _
        rw [g5 (by rw [h2, h1]), h1, List.length_cons]
        omega

/-! ### The frame sampler layer -/

lemma trackStep_last (fps : ℚ) (T : ℤ) (snap : Snapshot) (s : AnalyzerState) :
    (trackStep fps T snap s).state.last = snap := rfl

lemma frameStep_last (fps : ℚ) (T : ℤ) (dets : List Detection)
    (s : AnalyzerState) :
    (frameStep fps T dets s).state.last =
      if s.frame_count % FRAME_SKIP = 0 then classify dets else s.last := rfl

lemma frameStep_frame_count (fps : ℚ) (T : ℤ) (dets : List Detection)
    (s : AnalyzerState) :
    (frameStep fps T dets s).state.frame_count = s.frame_count + 1 :=
  (trackStep_counters fps T _ s).1

lemma analyzeRun_cons_fst (fps : ℚ) (T : ℤ) (dets : List Detection)
    (rest : List (List Detection)) (s : AnalyzerState) :
    (analyzeRun fps T (dets :: rest) s).1 =
      (analyzeRun fps T rest (frameStep fps T dets s).state).1 := rfl

lemma analyzeRun_frame_count (fps : ℚ) (T : ℤ) :
    ∀ (frames : List (List Detection)) (s : AnalyzerState),
      (analyzeRun fps T frames s).1.frame_count =
        s.frame_count + frames.length := by
  intro frames
  induction frames with
  | nil => intro s; simp [analyzeRun]
  | cons d rest ih =>
      intro s
      rw [analyzeRun_cons_fst, ih, frameStep_frame_count, List.length_cons]
      omega

lemma analyzeRun_append_fst (fps : ℚ) (T : ℤ) :
    ∀ (xs ys : List (List Detection)) (s : AnalyzerState),
      (analyzeRun fps T (xs ++ ys) s).1 =
        (analyzeRun fps T ys (analyzeRun fps T xs s).1).1 := by
  intro xs
  induction xs with
  | nil => intro ys s; simp [analyzeRun]
  | cons d rest ih =>
      intro ys s
      rw [List.cons_append, analyzeRun_cons_fst, ih, analyzeRun_cons_fst]

/-- The analyzer state after one more frame is the frame step applied to the
state after the prefix. -/
lemma analyzeRun_take_succ (fps : ℚ) (T : ℤ) (frames : List (List Detection))
    (i : ℕ) (hi : i < frames.length) (s : AnalyzerState) :
    (analyzeRun fps T (frames.take (i + 1)) s).1 =
      (frameStep fps T (frames.getD i [])
        (analyzeRun fps T (frames.take i) s).1).state := by
  rw [List.take_succ]
  have hg : frames[i]? = some frames[i] := List.getElem?_eq_getElem hi
  have hd : frames.getD i [] = frames[i] := by
    simp [List.getD, hg]
  rw [hg, hd, Option.toList_some, analyzeRun_append_fst]
  rfl

/-! ### Claim theorems -/

/-- C1 (amended): during continuous absence the alert fires every `T + 1`
frames, not every `T`: for an absence of `M * (T + 1) + r` consecutive frames
(`0 ≤ r ≤ T`) from the start of the run, exactly `M` person_missing_alert
events are emitted, the `k`-th at frame `k * (T + 1) + T` with duration
`T / fps` seconds (which is `alert_duration_seconds` when `fps ×
alert_duration_seconds` is integral); in the fps=30, threshold-60 scenario
with the person absent for frames 0-149 the two alerts land at frames 60 and
121, each with duration 2.0 s, and `off_camera_frames = 150`. -/
theorem offcam_alert_periodicity (fps : ℚ) (T M r : ℕ) (hT : 1 ≤ T)
    (hr : r ≤ T) :
    (trackRun fps (T : ℤ) (List.replicate (M * (T + 1) + r) absentSnap)
        initState).2 =
      (List.range M).map (fun k =>
        { label := .person_missing_alert
          duration_seconds := (T : ℚ) / fps
          frame := k * (T + 1) + T }) ∧
    (trackRun fps (T : ℤ) (List.replicate (M * (T + 1) + r) absentSnap)
        initState).1.stats.off_camera_frames = M * (T + 1) + r ∧
    (trackRun fps (T : ℤ) (List.replicate (M * (T + 1) + r) absentSnap)
        initState).1.stats.total_video_frames = M * (T + 1) + r := by
  have h := absRun_full fps T hT r hr M initState rfl rfl rfl rfl
  rw [h]
  simp [initState]

/-- C1 witness: the amended periodicity instantiated at the spec scenario
fps=30, T=60, M=2, r=28 (150 absent frames). -/
theorem offcam_alert_periodicity_witness :
    1 ≤ 60 ∧ 28 ≤ 60 ∧
    ((trackRun 30 ((60 : ℕ) : ℤ)
        (List.replicate (2 * (60 + 1) + 28) absentSnap) initState).2 =
      (List.range 2).map (fun k =>
        { label := .person_missing_alert
          duration_seconds := ((60 : ℕ) : ℚ) / 30
          frame := k * (60 + 1) + 60 }) ∧
    (trackRun 30 ((60 : ℕ) : ℤ)
        (List.replicate (2 * (60 + 1) + 28) absentSnap)
        initState).1.stats.off_camera_frames = 2 * (60 + 1) + 28 ∧
    (trackRun 30 ((60 : ℕ) : ℤ)
        (List.replicate (2 * (60 + 1) + 28) absentSnap)
        initState).1.stats.total_video_frames = 2 * (60 + 1) + 28) :=
  ⟨by decide, by decide,
    offcam_alert_periodicity 30 60 2 28 (by decide) (by decide)⟩

/-- C1 counterexample: in the stated scenario (fps=30, threshold 60 frames,
person absent for frames 0-149) the two alerts are emitted at frames 60 and
121 — not at frames 59 and 119 as claimed — and an absence of exactly
`M × alert_duration_frames` frames with M=1 (60 frames) emits no alert at
all, where the claimed formula demands exactly one. -/
theorem offcam_alert_claim_counterexample :
    ((trackRun 30 ((60 : ℕ) : ℤ) (List.replicate 150 absentSnap)
        initState).2.map (fun e => e.frame) = [60, 121]) ∧
    ¬ ((trackRun 30 ((60 : ℕ) : ℤ) (List.replicate 150 absentSnap)
        initState).2.map (fun e => e.frame) = [59, 119]) ∧
    ((trackRun 30 ((60 : ℕ) : ℤ) (List.replicate 60 absentSnap)
        initState).2.length = 0) := by
  have h1 := absRun_full 30 60 (by norm_num) 28 (by norm_num) 2 initState
    rfl rfl rfl rfl
  have h2 := absRun_full 30 60 (by norm_num) 60 (by norm_num) 0 initState
    rfl rfl rfl rfl
  norm_num at h1 h2
  rw [show ((60 : ℕ) : ℤ) = (60 : ℤ) from by norm_num,
    show (150 : ℕ) = 2 * (60 + 1) + 28 from by norm_num]
  rw [h1, h2]
  simp [List.range_succ, initState]

/-- C2: a mobile-in-hand condition that is false, then continuously true for
`K` consecutive frames, then false again, produces exactly one
mobile_in_hand_start event (on the first true frame, duration 0) and exactly
one mobile_in_hand_end event (on the frame where the condition becomes false,
duration `K / fps` exactly), with no events on the intermediate frames; in
the fps=10 scenario with the condition true exactly for frames 10-39, the
start event is at frame 10 with duration 0 and the end event at the frame-40
transition with duration 3.0 s. -/
theorem mobile_debounce_bracket (fps : ℚ) (T : ℤ) (K : ℕ) (hK : 1 ≤ K)
    (s : AnalyzerState)
    (hm : s.mobile_in_hand_start_frame = -1)
    (htot : s.stats.total_video_frames = s.frame_count) :
    (trackRun fps T (List.replicate K mobileSnap ++ [presentIdleSnap]) s).2 =
      [{ label := .mobile_in_hand_start, duration_seconds := 0
         frame := s.frame_count },
       { label := .mobile_in_hand_end, duration_seconds := (K : ℚ) / fps
         frame := s.frame_count + K }] ∧
    (trackRun fps T (List.replicate K mobileSnap ++ [presentIdleSnap])
        s).1.mobile_in_hand_start_frame = -1 ∧
    (trackRun 10 3000 (List.replicate 10 presentIdleSnap ++
        (List.replicate 30 mobileSnap ++ [presentIdleSnap])) initState).2 =
      [{ label := .mobile_in_hand_start, duration_seconds := 0, frame := 10 },
       { label := .mobile_in_hand_end, duration_seconds := 3, frame := 40 }] := by
  have h := mobBracket fps T K hK s hm htot
  refine ⟨by rw [h], by rw [h], ?_⟩
  have e0 := trackStep_present_idle 10 3000 initState rfl
  have e1 := idleRun 10 3000 9 ⟨-1, -1, 1, presentIdleSnap, ⟨1, 0, 0, 0⟩⟩
    rfl rfl rfl rfl
  have e2 := mobBracket 10 3000 30 (by norm_num)
    ⟨-1, -1, 10, presentIdleSnap, ⟨10, 0, 0, 0⟩⟩ rfl rfl
  rw [show (10 : ℕ) = 9 + 1 from rfl, List.replicate_succ, List.cons_append,
    trackRun, e0]
  simp only [initState] at *
  rw [trackRun_append, e1]
  simp only
  rw [e2]
  norm_num

/-- C2 witness: the debounce bracket instantiated at fps=10, K=30 from the
initial state. -/
theorem mobile_debounce_bracket_witness :
    1 ≤ 30 ∧ initState.mobile_in_hand_start_frame = -1 ∧
    initState.stats.total_video_frames = initState.frame_count ∧
    ((trackRun 10 3000
        (List.replicate 30 mobileSnap ++ [presentIdleSnap]) initState).2 =
      [{ label := .mobile_in_hand_start, duration_seconds := 0
         frame := initState.frame_count },
       { label := .mobile_in_hand_end, duration_seconds := ((30 : ℕ) : ℚ) / 10
         frame := initState.frame_count + 30 }] ∧
    (trackRun 10 3000 (List.replicate 30 mobileSnap ++ [presentIdleSnap])
        initState).1.mobile_in_hand_start_frame = -1 ∧
    (trackRun 10 3000 (List.replicate 10 presentIdleSnap ++
        (List.replicate 30 mobileSnap ++ [presentIdleSnap])) initState).2 =
      [{ label := .mobile_in_hand_start, duration_seconds := 0, frame := 10 },
       { label := .mobile_in_hand_end, duration_seconds := 3, frame := 40 }]) :=
  ⟨by decide, rfl, rfl,
    mobile_debounce_bracket 10 3000 30 (by decide) initState rfl rfl⟩

/-- C3: on every frame the hierarchy is evaluated top-down with first match
winning: absent ⇒ label "Off-Camera/Missing" and `off_camera_frames`
increments; else mobile ⇒ "Using Mobile Phone" and `mobile_in_hand_frames`
increments; else laptop/keyboard ⇒ "Working on Laptop" and `working_frames`
increments; else "Present (Idle/Other)" with no category counter touched;
`total_video_frames` is set to `frame_count + 1` unconditionally once per
frame. -/
theorem hierarchy_per_frame (fps : ℚ) (T : ℤ) (snap : Snapshot)
    (s : AnalyzerState) :
    ((trackStep fps T snap s).state.stats.total_video_frames =
        s.frame_count + 1 ∧
      (trackStep fps T snap s).state.frame_count = s.frame_count + 1) ∧
    (snap.person_present = false →
      (trackStep fps T snap s).label = labelOffCamera ∧
      (trackStep fps T snap s).state.stats.off_camera_frames =
        s.stats.off_camera_frames + 1 ∧
      (trackStep fps T snap s).state.stats.mobile_in_hand_frames =
        s.stats.mobile_in_hand_frames ∧
      (trackStep fps T snap s).state.stats.working_frames =
        s.stats.working_frames) ∧
    (snap.person_present = true → snap.mobile_in_hand = true →
      (trackStep fps T snap s).label = labelMobile ∧
      (trackStep fps T snap s).state.stats.mobile_in_hand_frames =
        s.stats.mobile_in_hand_frames + 1 ∧
      (trackStep fps T snap s).state.stats.off_camera_frames =
        s.stats.off_camera_frames ∧
      (trackStep fps T snap s).state.stats.working_frames =
        s.stats.working_frames) ∧
    (snap.person_present = true → snap.mobile_in_hand = false →
      snap.laptop_detected = true →
      (trackStep fps T snap s).label = labelWorking ∧
      (trackStep fps T snap s).state.stats.working_frames =
        s.stats.working_frames + 1 ∧
      (trackStep fps T snap s).state.stats.off_camera_frames =
        s.stats.off_camera_frames ∧
      (trackStep fps T snap s).state.stats.mobile_in_hand_frames =
        s.stats.mobile_in_hand_frames) ∧
    (snap.person_present = true → snap.mobile_in_hand = false →
      snap.laptop_detected = false →
      (trackStep fps T snap s).label = labelIdle ∧
      (trackStep fps T snap s).state.stats.off_camera_frames =
        s.stats.off_camera_frames ∧
      (trackStep fps T snap s).state.stats.mobile_in_hand_frames =
        s.stats.mobile_in_hand_frames ∧
      (trackStep fps T snap s).state.stats.working_frames =
        s.stats.working_frames) := by
  obtain ⟨p, mo, la⟩ := snap
  refine ⟨⟨(trackStep_counters fps T _ s).2.1,
    (trackStep_counters fps T _ s).1⟩, ?_, ?_, ?_, ?_⟩
  · intro h1
    simp only at h1
    subst h1
    cases mo <;> cases la <;>
      (simp [trackStep, hierarchyStep, mobileDebounce]
       all_goals ((try split) <;> (try split) <;> (first | rfl | simp)))
  · intro h1 h2
    simp only at h1 h2
    subst h1
    subst h2
    cases la <;> simp [trackStep, hierarchyStep, mobileDebounce]
  · intro h1 h2 h3
    simp only at h1 h2 h3
    subst h1
    subst h2
    subst h3
    simp [trackStep, hierarchyStep, mobileDebounce]
  · intro h1 h2 h3
    simp only at h1 h2 h3
    subst h1
    subst h2
    subst h3
    simp [trackStep, hierarchyStep, mobileDebounce]

/-- C3 witness: the hierarchy facts instantiated on an absent frame and on a
mobile frame from the initial state. -/
theorem hierarchy_per_frame_witness :
    absentSnap.person_present = false ∧
    ((trackStep 30 60 absentSnap initState).label = labelOffCamera ∧
     (trackStep 30 60 absentSnap initState).state.stats.off_camera_frames =
       initState.stats.off_camera_frames + 1 ∧
     (trackStep 30 60 absentSnap initState).state.stats.mobile_in_hand_frames =
       initState.stats.mobile_in_hand_frames ∧
     (trackStep 30 60 absentSnap initState).state.stats.working_frames =
       initState.stats.working_frames) ∧
    mobileSnap.person_present = true ∧ mobileSnap.mobile_in_hand = true ∧
    ((trackStep 30 60 mobileSnap initState).label = labelMobile ∧
     (trackStep 30 60 mobileSnap initState).state.stats.mobile_in_hand_frames =
       initState.stats.mobile_in_hand_frames + 1 ∧
     (trackStep 30 60 mobileSnap initState).state.stats.off_camera_frames =
       initState.stats.off_camera_frames ∧
     (trackStep 30 60 mobileSnap initState).state.stats.working_frames =
       initState.stats.working_frames) :=
  ⟨rfl, (hierarchy_per_frame 30 60 absentSnap initState).2.1 rfl, rfl, rfl,
    (hierarchy_per_frame 30 60 mobileSnap initState).2.2.1 rfl rfl⟩

/-- C4: for every frame sequence processed from the initial state,
`off_camera_frames + (number of present frames) = total_video_frames`; the
three category counters sum to at most `total_video_frames`; a present frame
never touches `off_camera_frames` and increments at most one of the two
present sub-counters, by exactly one; and all four counters are monotonically
non-decreasing along the run. -/
theorem counter_invariants (fps : ℚ) (T : ℤ) (snaps : List Snapshot) :
    ((trackRun fps T snaps initState).1.stats.off_camera_frames +
        countPresent snaps =
      (trackRun fps T snaps initState).1.stats.total_video_frames) ∧
    ((trackRun fps T snaps initState).1.stats.off_camera_frames +
        (trackRun fps T snaps initState).1.stats.mobile_in_hand_frames +
        (trackRun fps T snaps initState).1.stats.working_frames ≤
      (trackRun fps T snaps initState).1.stats.total_video_frames) ∧
    (∀ (s : AnalyzerState) (snap : Snapshot), snap.person_present = true →
      (trackStep fps T snap s).state.stats.off_camera_frames =
        s.stats.off_camera_frames ∧
      ((trackStep fps T snap s).state.stats.mobile_in_hand_frames =
          s.stats.mobile_in_hand_frames ∨
        (trackStep fps T snap s).state.stats.mobile_in_hand_frames =
          s.stats.mobile_in_hand_frames + 1) ∧
      ((trackStep fps T snap s).state.stats.working_frames =
          s.stats.working_frames ∨
        (trackStep fps T snap s).state.stats.working_frames =
          s.stats.working_frames + 1) ∧
      ((trackStep fps T snap s).state.stats.mobile_in_hand_frames +
          (trackStep fps T snap s).state.stats.working_frames ≤
        s.stats.mobile_in_hand_frames + s.stats.working_frames + 1)) ∧
    (∀ xs ys : List Snapshot,
      (trackRun fps T xs initState).1.stats.off_camera_frames ≤
        (trackRun fps T (xs ++ ys) initState).1.stats.off_camera_frames ∧
      (trackRun fps T xs initState).1.stats.mobile_in_hand_frames ≤
        (trackRun fps T (xs ++ ys) initState).1.stats.mobile_in_hand_frames ∧
      (trackRun fps T xs initState).1.stats.working_frames ≤
        (trackRun fps T (xs ++ ys) initState).1.stats.working_frames ∧
      (trackRun fps T xs initState).1.stats.total_video_frames ≤
        (trackRun fps T (xs ++ ys) initState).1.stats.total_video_frames) := by
  obtain ⟨hfc, hoff, hmob, hwork, htot⟩ := trackRun_counters fps T snaps initState
  have htot' := htot rfl
  refine ⟨?_, ?_, ?_, ?_⟩
  · rw [hoff, htot']
    have h1 := countAbsent_add_countPresent snaps
    simp only [initState] at *
    omega
  · rw [hoff, hmob, hwork, htot']
    have h1 := countAbsent_add_countPresent snaps
    have h2 := countMobile_add_countWorking_le snaps
    simp only [initState] at *
    omega
  · intro s snap hp
    obtain ⟨k1, k2, k3, k4, k5⟩ := trackStep_counters fps T snap s
    simp only [hp] at k3 k4 k5
    rw [k3, k4, k5]
    cases snap.mobile_in_hand <;> cases snap.laptop_detected <;>
      simp <;> omega
  · intro xs ys
    rw [trackRun_append]
    obtain ⟨a1, a2, a3, a4, a5⟩ := trackRun_counters fps T xs initState
    obtain ⟨b1, b2, b3, b4, b5⟩ :=
      trackRun_counters fps T ys (trackRun fps T xs initState).1
    have ha5 := a5 rfl
    have hb5 := b5 (by rw [ha5, a1])
    refine ⟨by rw [b2]; omega, by rw [b3]; omega, by rw [b4]; omega, ?_⟩
    rw [hb5, ha5, a1]
    omega

/-- C4 witness: the invariants instantiated at a three-frame run (absent,
mobile, idle), a present step from the initial state, and a prefix pair. -/
theorem counter_invariants_witness :
    presentIdleSnap.person_present = true ∧
    ((trackStep 30 60 presentIdleSnap initState).state.stats.off_camera_frames =
        initState.stats.off_camera_frames ∧
      ((trackStep 30 60 presentIdleSnap initState).state.stats.mobile_in_hand_frames =
          initState.stats.mobile_in_hand_frames ∨
        (trackStep 30 60 presentIdleSnap initState).state.stats.mobile_in_hand_frames =
          initState.stats.mobile_in_hand_frames + 1) ∧
      ((trackStep 30 60 presentIdleSnap initState).state.stats.working_frames =
          initState.stats.working_frames ∨
        (trackStep 30 60 presentIdleSnap initState).state.stats.working_frames =
          initState.stats.working_frames + 1) ∧
      ((trackStep 30 60 presentIdleSnap initState).state.stats.mobile_in_hand_frames +
          (trackStep 30 60 presentIdleSnap initState).state.stats.working_frames ≤
        initState.stats.mobile_in_hand_frames +
          initState.stats.working_frames + 1)) ∧
    ((trackRun 30 60 [absentSnap, mobileSnap, presentIdleSnap]
        initState).1.stats.off_camera_frames +
        countPresent [absentSnap, mobileSnap, presentIdleSnap] =
      (trackRun 30 60 [absentSnap, mobileSnap, presentIdleSnap]
        initState).1.stats.total_video_frames) :=
  ⟨rfl,
    (counter_invariants 30 60 [absentSnap, mobileSnap, presentIdleSnap]).2.2.1
      initState presentIdleSnap rfl,
    (counter_invariants 30 60 [absentSnap, mobileSnap, presentIdleSnap]).1⟩

/-- C5 (amended): the vertical-zone comparison is strict (`>`): a mobile box
whose vertical center lies exactly on the line 20% down from the top of the
person box does NOT satisfy the vertical-zone condition, so such a pair never
yields mobile_in_hand — even when the horizontal-proximity and overlap
conditions hold; a center strictly below the line satisfies the vertical
condition. -/
theorem vertical_zone_boundary (p m : Box)
    (hline : ((m.y1 + m.y2 : ℚ) / 2) = (py_mobile_zone p : ℚ)) :
    vertical_prox p m = false ∧ qualifies p m = false ∧
    mobile_in_hand_check [p] [m] = false ∧
    (∀ q n : Box, ((n.y1 + n.y2 : ℚ) / 2) > (py_mobile_zone q : ℚ) →
      vertical_prox q n = true) := by
  have hv : vertical_prox p m = false := by
    simp [vertical_prox, hline]
  refine ⟨hv, ?_, ?_, ?_⟩
  · simp [qualifies, hv]
  · simp [mobile_in_hand_check, qualifies, hv]
  · intro q n hgt
    simp [vertical_prox, hgt]

/-- C5 witness: the boundary theorem applied to person box (0,0,100,100) and
mobile box (40,0,60,40), whose vertical center 20 sits exactly on the line. -/
theorem vertical_zone_boundary_witness :
    ((((⟨40, 0, 60, 40⟩ : Box).y1 + (⟨40, 0, 60, 40⟩ : Box).y2 : ℚ) / 2) =
      (py_mobile_zone ⟨0, 0, 100, 100⟩ : ℚ)) ∧
    (vertical_prox ⟨0, 0, 100, 100⟩ ⟨40, 0, 60, 40⟩ = false ∧
     qualifies ⟨0, 0, 100, 100⟩ ⟨40, 0, 60, 40⟩ = false ∧
     mobile_in_hand_check [⟨0, 0, 100, 100⟩] [⟨40, 0, 60, 40⟩] = false ∧
     (∀ q n : Box, ((n.y1 + n.y2 : ℚ) / 2) > (py_mobile_zone q : ℚ) →
       vertical_prox q n = true)) :=
  ⟨by norm_num [py_mobile_zone],
   vertical_zone_boundary ⟨0, 0, 100, 100⟩ ⟨40, 0, 60, 40⟩
     (by norm_num [py_mobile_zone])⟩

/-- C5 counterexample: person box (0,0,100,100) and mobile box (40,0,60,40)
satisfy horizontal proximity and have strictly positive overlap, and the
mobile's vertical center (20) lies exactly on the 20%-from-top line
(`py_mobile_zone = 20`), yet the classifier reports mobile_in_hand = false —
refuting the claim that a center exactly on the line yields true. -/
theorem vertical_zone_claim_counterexample :
    horizontal_prox ⟨0, 0, 100, 100⟩ ⟨40, 0, 60, 40⟩ = true ∧
    touches ⟨0, 0, 100, 100⟩ ⟨40, 0, 60, 40⟩ = true ∧
    py_mobile_zone ⟨0, 0, 100, 100⟩ = 20 ∧
    (((⟨40, 0, 60, 40⟩ : Box).y1 + (⟨40, 0, 60, 40⟩ : Box).y2 : ℚ) / 2) = 20 ∧
    mobile_in_hand_check [⟨0, 0, 100, 100⟩] [⟨40, 0, 60, 40⟩] = false := by
  refine ⟨?_, ?_, ?_, ?_, ?_⟩ <;>
    norm_num [horizontal_prox, touches, interArea, py_mobile_zone,
      mobile_in_hand_check, qualifies, vertical_prox]

/-- C6: a mobile box whose clamped intersection area with every person box is
zero is never classified as in hand, no matter how close the centers are; and
any qualifying pair has strictly positive intersection area. -/
theorem zero_overlap_never_in_hand (persons : List Box) (m : Box)
    (h : ∀ p ∈ persons, interArea p m = 0) :
    (∀ p ∈ persons, qualifies p m = false) ∧
    mobile_in_hand_check persons [m] = false ∧
    (∀ p' m' : Box, qualifies p' m' = true → 0 < interArea p' m') := by
  have hq : ∀ p ∈ persons, qualifies p m = false := by
    intro p hp
    have h0 := h p hp
    simp [qualifies, touches, h0]
  refine ⟨hq, ?_, ?_⟩
  · simp only [mobile_in_hand_check, List.any_eq_false]
    intro p hp
    simp [hq p hp]
  · intro p' m' hq'
    simp only [qualifies, Bool.and_eq_true] at hq'
    have ht := hq'.2
    simpa [touches] using ht

/-- C6 witness: a mobile box far away from the one person box (zero clamped
overlap) is not in hand. -/
theorem zero_overlap_never_in_hand_witness :
    (∀ p ∈ [(⟨0, 0, 10, 10⟩ : Box)], interArea p ⟨20, 20, 30, 30⟩ = 0) ∧
    ((∀ p ∈ [(⟨0, 0, 10, 10⟩ : Box)], qualifies p ⟨20, 20, 30, 30⟩ = false) ∧
     mobile_in_hand_check [⟨0, 0, 10, 10⟩] [⟨20, 20, 30, 30⟩] = false ∧
     (∀ p' m' : Box, qualifies p' m' = true → 0 < interArea p' m')) :=
  ⟨by norm_num [interArea],
   zero_overlap_never_in_hand [⟨0, 0, 10, 10⟩] ⟨20, 20, 30, 30⟩
     (by norm_num [interArea])⟩

/-- C7: the detector runs exactly on frames with
`frame_count % FRAME_SKIP == 0`, replacing the cached snapshot with the
classifier's output; on every other frame the cached snapshot consumed by the
state machine and both trackers is bit-for-bit the one produced by the most
recent sampled frame. -/
theorem frame_sampler_caching (fps : ℚ) (T : ℤ)
    (frames : List (List Detection)) :
    (∀ (dets : List Detection) (s : AnalyzerState),
      s.frame_count % FRAME_SKIP ≠ 0 →
      (frameStep fps T dets s).state.last = s.last) ∧
    (∀ (dets : List Detection) (s : AnalyzerState),
      s.frame_count % FRAME_SKIP = 0 →
      (frameStep fps T dets s).state.last = classify dets) ∧
    (∀ i, i < frames.length →
      (analyzeRun fps T (frames.take (i + 1)) initState).1.last =
        classify (frames.getD (FRAME_SKIP * (i / FRAME_SKIP)) [])) := by
  refine ⟨?_, ?_, ?_⟩
  · intro dets s h
    rw [frameStep_last, if_neg h]
  · intro dets s h
    rw [frameStep_last, if_pos h]
  · intro i
    induction i using Nat.strong_induction_on with
    | _ i ih =>
      intro hi
      have hfc :
          (analyzeRun fps T (frames.take i) initState).1.frame_count = i := by
        rw [analyzeRun_frame_count]
        simp only [initState, List.length_take]
        omega
      rw [analyzeRun_take_succ fps T frames i hi initState, frameStep_last, hfc]
      by_cases h : i % FRAME_SKIP = 0
      · rw [if_pos h, Nat.mul_div_cancel' (Nat.dvd_of_mod_eq_zero h)]
      · rw [if_neg h]
        obtain ⟨j, rfl⟩ : ∃ j, i = j + 1 := by
          rcases Nat.eq_zero_or_pos i with h0 | h0
          · subst h0
            exact absurd (by decide) h
          · exact ⟨i - 1, by omega⟩
        rw [ih j (by omega) (by omega)]
        have hd : (j + 1) / FRAME_SKIP = j / FRAME_SKIP := by
          rw [Nat.succ_div, if_neg]
          · omega
          · intro hdvd
            exact h (Nat.dvd_iff_mod_eq_zero.mp hdvd)
        rw [hd]

/-- C7 witness: a skipped frame (index 1) reuses the cached snapshot, and in a
two-frame run the snapshot consumed on frame 1 is the one classified on
frame 0. -/
theorem frame_sampler_caching_witness :
    ((⟨-1, -1, 1, absentSnap, ⟨1, 0, 0, 0⟩⟩ : AnalyzerState).frame_count %
        FRAME_SKIP ≠ 0) ∧
    ((frameStep 30 60 [] ⟨-1, -1, 1, absentSnap, ⟨1, 0, 0, 0⟩⟩).state.last =
      (⟨-1, -1, 1, absentSnap, ⟨1, 0, 0, 0⟩⟩ : AnalyzerState).last) ∧
    (1 < ([[], []] : List (List Detection)).length) ∧
    ((analyzeRun 30 60 (([[], []] : List (List Detection)).take (1 + 1))
        initState).1.last =
      classify (([[], []] : List (List Detection)).getD
        (FRAME_SKIP * (1 / FRAME_SKIP)) [])) :=
  ⟨by decide,
   (frame_sampler_caching 30 60 [[], []]).1 []
     ⟨-1, -1, 1, absentSnap, ⟨1, 0, 0, 0⟩⟩ (by decide),
   by decide,
   (frame_sampler_caching 30 60 [[], []]).2.2 1 (by decide)⟩

/-- C8: the report guards its divisors: with `total_video_frames = 0` every
percentage in the final report is 0 (the guard returns 0 instead of
dividing), and duration formatting with fps = 0 yields "00:00:00" instead of
dividing. -/
theorem report_division_guards :
    (∀ (st : Stats) (fps : ℚ), st.total_video_frames = 0 →
      (print_final_report st fps).off_camera_percent = 0 ∧
      (print_final_report st fps).mobile_percent = 0 ∧
      (print_final_report st fps).working_percent = 0) ∧
    (∀ frames : ℕ, frames_to_time_str frames 0 = "00:00:00") := by
  constructor
  · intro st fps h
    simp [print_final_report, percent_of, h]
  · intro frames
    simp [frames_to_time_str]

/-- C8 witness: a run with zero total frames reports 0% for all three
categories, and formatting any frame count at fps 0 gives "00:00:00". -/
theorem report_division_guards_witness :
    ((⟨0, 0, 0, 0⟩ : Stats).total_video_frames = 0) ∧
    ((print_final_report ⟨0, 0, 0, 0⟩ 30).off_camera_percent = 0 ∧
     (print_final_report ⟨0, 0, 0, 0⟩ 30).mobile_percent = 0 ∧
     (print_final_report ⟨0, 0, 0, 0⟩ 30).working_percent = 0) ∧
    frames_to_time_str 100 0 = "00:00:00" :=
  ⟨rfl, report_division_guards.1 ⟨0, 0, 0, 0⟩ 30 rfl,
   report_division_guards.2 100⟩

/-- C9: an absence interval of `L ≤ T` frames followed by the person's return
is silently recovered: no event of any kind is emitted during the interval or
on the return frame, and the return frame resets `off_camera_start_frame` to
the sentinel -1. -/
theorem subthreshold_absence_silent (fps : ℚ) (T L : ℕ) (hL : L ≤ T)
    (s : AnalyzerState)
    (hm : s.mobile_in_hand_start_frame = -1)
    (hoff : s.off_camera_start_frame = -1)
    (htot : s.stats.total_video_frames = s.frame_count) :
    (trackRun fps (T : ℤ) (List.replicate L absentSnap ++ [presentIdleSnap])
        s).2 = [] ∧
    (trackRun fps (T : ℤ) (List.replicate L absentSnap ++ [presentIdleSnap])
        s).1.off_camera_start_frame = -1 := by
  obtain ⟨o, m, c, l, ⟨tv, oc, mf, wf⟩⟩ := s
  simp only at hm hoff htot
  have htot' := htot.symm
  subst hm hoff htot'
  rcases Nat.eq_zero_or_pos L with h0 | h1
  · subst h0
    have e := trackStep_present_idle fps ((T : ℕ) : ℤ)
      ⟨-1, -1, c, l, ⟨c, oc, mf, wf⟩⟩ rfl
    simp only at e
    rw [List.replicate_zero, List.nil_append, trackRun, e]
    simp [trackRun]
  · obtain ⟨u, rfl⟩ : ∃ u, L = u + 1 := ⟨L - 1, by omega⟩
    have e1 := trackStep_absent_enter fps ((T : ℕ) : ℤ) (by omega)
      ⟨-1, -1, c, l, ⟨c, oc, mf, wf⟩⟩ rfl rfl
    simp only at e1
    rw [List.replicate_succ, List.cons_append, trackRun, e1]
    simp only
    have e2 := absRun_wait fps ((T : ℕ) : ℤ) (c : ℤ) (by omega) u
      ⟨(c : ℤ), -1, c + 1, absentSnap, ⟨c + 1, oc + 1, mf, wf⟩⟩
      rfl rfl rfl rfl (by push_cast; omega)
    rw [trackRun_append, e2]
    simp only
    have e3 := trackStep_present_idle fps ((T : ℕ) : ℤ)
      ⟨(c : ℤ), -1, c + 1 + u, absentSnap, ⟨c + 1 + u, oc + 1 + u, mf, wf⟩⟩ rfl
    simp only at e3
    rw [trackRun, e3]
    simp [trackRun]

/-- C9 witness: a 5-frame absence under a 60-frame threshold followed by the
person's return emits nothing and leaves the tracker idle. -/
theorem subthreshold_absence_silent_witness :
    5 ≤ 60 ∧ initState.mobile_in_hand_start_frame = -1 ∧
    initState.off_camera_start_frame = -1 ∧
    initState.stats.total_video_frames = initState.frame_count ∧
    ((trackRun 30 ((60 : ℕ) : ℤ)
        (List.replicate 5 absentSnap ++ [presentIdleSnap]) initState).2 = [] ∧
     (trackRun 30 ((60 : ℕ) : ℤ)
        (List.replicate 5 absentSnap ++ [presentIdleSnap])
        initState).1.off_camera_start_frame = -1) :=
  ⟨by decide, rfl, rfl, rfl,
   subthreshold_absence_silent 30 60 5 (by decide) initState rfl rfl rfl⟩

/-- C10: `fps = cap.get(...) or TARGET_FPS` substitutes the configured target
exactly when the reported value is falsy (zero); hence whenever the target is
nonzero, the working fps used by every in-loop division is nonzero. -/
theorem fps_fallback_nonzero (reported target : ℚ) (h : target ≠ 0) :
    effective_fps 0 target = target ∧ effective_fps reported target ≠ 0 := by
  constructor
  · simp [effective_fps]
  · by_cases hr : reported = 0 <;> simp [effective_fps, hr, h]

/-- C10 witness: with a reported fps of 0 and target 60, the working fps is
60 and nonzero. -/
theorem fps_fallback_nonzero_witness :
    ((60 : ℚ) ≠ 0) ∧ (effective_fps 0 60 = 60 ∧ effective_fps 0 60 ≠ 0) :=
  ⟨by norm_num, fps_fallback_nonzero 0 60 (by norm_num)⟩

end CCTV
